import Mathlib

/-!
Shallow embedding of the stochastic cliff-walking gridworld
(`Group HW 2/gridworld/cliffwalker.py`, class `GridWorld`).

States are pairs of integer coordinates `(y, x)`.  Probabilities and
rewards are modelled as exact rationals.  The per-cell call to
`np.random.random()` made during cliff generation is modelled by an
explicit function `draw : State → ℚ` giving the value drawn for each
grid cell (each cell is drawn at most once, so indexing draws by cell
is faithful; draws of the real generator lie in `[0, 1)`).
-/

namespace Cliffwalker

/-- A grid state, `State = namedtuple('State', ['y', 'x'])`. -/
structure State where
  y : Int
  x : Int
deriving DecidableEq, Repr, Inhabited

/-- A transition record, `Transition = namedtuple('Transition', ['state', 'prob', 'reward'])`. -/
structure Transition where
  state : State
  prob : ℚ
  reward : ℚ
deriving DecidableEq, Repr

/-- The four movement actions, `ACTION_LEFT = 0`, `ACTION_RIGHT = 1`, `ACTION_UP = 2`, `ACTION_DOWN = 3`. -/
inductive Action where
  | LEFT
  | RIGHT
  | UP
  | DOWN
deriving DecidableEq, Repr

/-- Numeric code of an action, matching the Python integer constants. -/
def Action.idx : Action → Nat
  | .LEFT => 0
  | .RIGHT => 1
  | .UP => 2
  | .DOWN => 3

/-- The list `ACTIONS = [ACTION_LEFT, ACTION_RIGHT, ACTION_UP, ACTION_DOWN]`. -/
def ACTIONS : List Action := [Action.LEFT, Action.RIGHT, Action.UP, Action.DOWN]

/-- The class constant `FALL_REWARD = -40`. -/
def FALL_REWARD : ℚ := -40

/-- The `GridWorld` object: fields assigned by `GridWorld.__init__`. -/
structure GridWorld where
  height : Nat
  width : Nat
  random_action_p : ℚ
  risky_p_loss : ℚ
  risky_goal_states : Finset State
  initial_state : State
  goal_states : List State
  cliff_states : Finset State

/-- Row-major enumeration of all cells of a `height × width` grid
(`for y in range(height): for x in range(width)`). -/
def gridList (height width : Nat) : List State :=
  (List.range height).flatMap (fun (y : Nat) =>
    (List.range width).map (fun (x : Nat) => (⟨(y : Int), (x : Int)⟩ : State)))

/-- The cliff probability computed in `__init__`:
`p_cliff = 0.1 * (y / height)**2 * bool(x > 1 and y > 0 and x < width-2 and y < height-1)`. -/
def pCliff (height width : Nat) (s : State) : ℚ :=
  (1 / 10) * ((s.y : ℚ) / (height : ℚ)) ^ 2 *
    (if 1 < s.x ∧ 0 < s.y ∧ s.x < (width : Int) - 2 ∧ s.y < (height : Int) - 1 then 1 else 0)

/-- The cliff-generation loop of `__init__`: every grid cell other than the
initial state and the goal states is added to `cliff_states` exactly when
its draw falls below `p_cliff`; nothing is generated when `height == 1`. -/
def mkCliffStates (height width : Nat) (initial : State) (goals : List State)
    (draw : State → ℚ) : Finset State :=
  if height = 1 then ∅
  else (gridList height width).toFinset.filter
    (fun s => ¬(s = initial ∨ s ∈ goals) ∧ draw s < pCliff height width s)

/-- The constructor `GridWorld.__init__(height, width, random_action_p, risky_p_loss)`:
`risky_goal_states = {}` (empty), `initial_state = State(height-1, 0)`,
`goal_states = {State(height-1, width-1)}`, and `cliff_states` generated
from the per-cell draws. -/
def mkGridWorld (height width : Nat) (random_action_p risky_p_loss : ℚ)
    (draw : State → ℚ) : GridWorld :=
  { height := height
    width := width
    random_action_p := random_action_p
    risky_p_loss := risky_p_loss
    risky_goal_states := ∅
    initial_state := ⟨(height : Int) - 1, 0⟩
    goal_states := [⟨(height : Int) - 1, (width : Int) - 1⟩]
    cliff_states := mkCliffStates height width ⟨(height : Int) - 1, 0⟩
      [⟨(height : Int) - 1, (width : Int) - 1⟩] draw }

/-- The iterator `states(self)`: all grid cells in row-major order, skipping
cliff states (`if s in self.cliff_states: continue`). -/
def GridWorld.statesList (g : GridWorld) : List State :=
  (List.range g.height).flatMap (fun (y : Nat) =>
    (List.range g.width).filterMap (fun (x : Nat) =>
      if (⟨(y : Int), (x : Int)⟩ : State) ∈ g.cliff_states then none
      else some ⟨(y : Int), (x : Int)⟩))

/-- The method `target_state(self, s, a)`: one-cell deterministic move,
clamped at the grid boundary. -/
def GridWorld.target_state (g : GridWorld) (s : State) (a : Action) : State :=
  match a with
  | .LEFT => ⟨s.y, max (s.x - 1) 0⟩
  | .RIGHT => ⟨s.y, min (s.x + 1) ((g.width : Int) - 1)⟩
  | .UP => ⟨max (s.y - 1) 0, s.x⟩
  | .DOWN => ⟨min (s.y + 1) ((g.height : Int) - 1), s.x⟩

/-- The expression `next(iter(self.goal_states))`: the first goal state. -/
def GridWorld.firstGoal (g : GridWorld) : State :=
  g.goal_states.headI

/-- The method `transitions(self, s)`: for each of the four actions in order,
the list of non-zero-probability transitions out of `s`. -/
def GridWorld.transitions (g : GridWorld) (s : State) : List (List Transition) :=
  if s ∈ g.goal_states then
    ACTIONS.map (fun _ => [(⟨s, 1, 0⟩ : Transition)])
  else if s ∈ g.risky_goal_states then
    ACTIONS.map (fun _ =>
      [(⟨g.firstGoal, g.risky_p_loss, -50⟩ : Transition),
       (⟨g.firstGoal, 1 - g.risky_p_loss, 100⟩ : Transition)])
  else
    ACTIONS.map (fun a =>
      ACTIONS.filterMap (fun b =>
        let t := g.target_state s b
        let s2 := if t ∈ g.cliff_states then g.firstGoal else t
        let r : ℚ := if t ∈ g.cliff_states then FALL_REWARD else -1
        let p : ℚ := if b = a then 1 - g.random_action_p else g.random_action_p / 3
        if p ≠ 0 then some (⟨s2, p, r⟩ : Transition) else none))

/-- The indexing `transitions(s)[a]` (the Python action codes index the outer list). -/
def transitionsAt (g : GridWorld) (s : State) (a : Action) : List Transition :=
  (g.transitions s).getD a.idx []

/-- A state whose coordinates lie inside the `height × width` grid. -/
def inGrid (height width : Nat) (s : State) : Prop :=
  0 ≤ s.y ∧ s.y < (height : Int) ∧ 0 ≤ s.x ∧ s.x < (width : Int)

instance (height width : Nat) (s : State) : Decidable (inGrid height width s) :=
  inferInstanceAs (Decidable (_ ∧ _ ∧ _ ∧ _))

/-- Strict row-major order on states: earlier row, or same row and earlier column. -/
def rowMajorLt (s t : State) : Prop :=
  s.y < t.y ∨ (s.y = t.y ∧ s.x < t.x)

/-! ### Supporting lemmas about the embedding -/

lemma mem_gridList {height width : Nat} {s : State} :
    s ∈ gridList height width ↔ inGrid height width s := by
  simp only [gridList, List.mem_flatMap, List.mem_map, List.mem_range, inGrid]
  constructor
  · rintro ⟨y, hy, x, hx, rfl⟩
    refine ⟨Int.ofNat_nonneg y, ?_, Int.ofNat_nonneg x, ?_⟩
    · show (y : Int) < (height : Int)
      exact_mod_cast hy
    · show (x : Int) < (width : Int)
      exact_mod_cast hx
  · rintro ⟨h1, h2, h3, h4⟩
    refine ⟨s.y.toNat, by omega, s.x.toNat, by omega, ?_⟩
    have h5 : ((s.y.toNat : Nat) : Int) = s.y := by omega
    have h6 : ((s.x.toNat : Nat) : Int) = s.x := by omega
    rw [h5, h6]

lemma mem_mkCliffStates {height width : Nat} {initial : State} {goals : List State}
    {draw : State → ℚ} {s : State} :
    s ∈ mkCliffStates height width initial goals draw ↔
      height ≠ 1 ∧ inGrid height width s ∧ ¬(s = initial ∨ s ∈ goals) ∧
        draw s < pCliff height width s := by
  unfold mkCliffStates
  split_ifs with h
  · simp [h]
  · simp [Finset.mem_filter, List.mem_toFinset, mem_gridList, h, and_assoc]

lemma mkGridWorld_height (h w : Nat) (q rp : ℚ) (draw : State → ℚ) :
    (mkGridWorld h w q rp draw).height = h := rfl

lemma mkGridWorld_width (h w : Nat) (q rp : ℚ) (draw : State → ℚ) :
    (mkGridWorld h w q rp draw).width = w := rfl

lemma mkGridWorld_random_action_p (h w : Nat) (q rp : ℚ) (draw : State → ℚ) :
    (mkGridWorld h w q rp draw).random_action_p = q := rfl

lemma mkGridWorld_risky_goal_states (h w : Nat) (q rp : ℚ) (draw : State → ℚ) :
    (mkGridWorld h w q rp draw).risky_goal_states = ∅ := rfl

lemma mkGridWorld_initial_state (h w : Nat) (q rp : ℚ) (draw : State → ℚ) :
    (mkGridWorld h w q rp draw).initial_state = ⟨(h : Int) - 1, 0⟩ := rfl

lemma mkGridWorld_goal_states (h w : Nat) (q rp : ℚ) (draw : State → ℚ) :
    (mkGridWorld h w q rp draw).goal_states = [⟨(h : Int) - 1, (w : Int) - 1⟩] := rfl

lemma mkGridWorld_cliff_states (h w : Nat) (q rp : ℚ) (draw : State → ℚ) :
    (mkGridWorld h w q rp draw).cliff_states =
      mkCliffStates h w ⟨(h : Int) - 1, 0⟩ [⟨(h : Int) - 1, (w : Int) - 1⟩] draw := rfl

lemma mkGridWorld_firstGoal (h w : Nat) (q rp : ℚ) (draw : State → ℚ) :
    (mkGridWorld h w q rp draw).firstGoal = ⟨(h : Int) - 1, (w : Int) - 1⟩ := rfl

lemma mem_cliff_mkGridWorld {h w : Nat} {q rp : ℚ} {draw : State → ℚ} {s : State} :
    s ∈ (mkGridWorld h w q rp draw).cliff_states ↔
      h ≠ 1 ∧ inGrid h w s ∧
        ¬(s = ⟨(h : Int) - 1, 0⟩ ∨ s = ⟨(h : Int) - 1, (w : Int) - 1⟩) ∧
        draw s < pCliff h w s := by
  rw [mkGridWorld_cliff_states, mem_mkCliffStates]
  simp

/-- Goal states are never cliff states in any constructed model. -/
lemma goal_not_cliff {h w : Nat} {q rp : ℚ} {draw : State → ℚ} {t : State}
    (ht : t ∈ (mkGridWorld h w q rp draw).goal_states) :
    t ∉ (mkGridWorld h w q rp draw).cliff_states := by
  rw [mkGridWorld_goal_states] at ht
  simp only [List.mem_singleton] at ht
  intro hc
  rw [mem_cliff_mkGridWorld] at hc
  exact hc.2.2.1 (Or.inr ht)

/-- Evaluation of `transitions(s)[a]` in the goal branch. -/
lemma transitionsAt_goal (g : GridWorld) (s : State) (a : Action)
    (hs : s ∈ g.goal_states) :
    transitionsAt g s a = [(⟨s, 1, 0⟩ : Transition)] := by
  unfold transitionsAt GridWorld.transitions
  rw [if_pos hs]
  cases a <;> rfl

/-- Evaluation of `transitions(s)[a]` in the general (non-terminal) branch. -/
lemma transitionsAt_general (g : GridWorld) (s : State) (a : Action)
    (hs : s ∉ g.goal_states) (hr : s ∉ g.risky_goal_states) :
    transitionsAt g s a = ACTIONS.filterMap (fun b =>
      if (if b = a then 1 - g.random_action_p else g.random_action_p / 3) ≠ 0 then
        some (⟨if g.target_state s b ∈ g.cliff_states then g.firstGoal
                 else g.target_state s b,
               if b = a then 1 - g.random_action_p else g.random_action_p / 3,
               if g.target_state s b ∈ g.cliff_states then FALL_REWARD else -1⟩ : Transition)
      else none) := by
  unfold transitionsAt GridWorld.transitions
  rw [if_neg hs, if_neg hr]
  cases a <;> rfl

/-- The probability mass of a candidate-action list: excluded candidates have
probability exactly 0, so the total is the sum of the four raw probabilities. -/
lemma probs_sum_eval (S : Action → State) (P R : Action → ℚ) :
    ((ACTIONS.filterMap (fun b =>
        if P b ≠ 0 then some ((⟨S b, P b, R b⟩ : Transition)) else none)).map
      Transition.prob).sum = P .LEFT + P .RIGHT + P .UP + P .DOWN := by
  simp only [ACTIONS, List.filterMap_cons, List.filterMap_nil]
  by_cases hL : P .LEFT = 0 <;> by_cases hR : P .RIGHT = 0 <;>
    by_cases hU : P .UP = 0 <;> by_cases hD : P .DOWN = 0 <;>
    simp [hL, hR, hU, hD] <;> ring

/-- The unclamped one-cell move in the direction of an action; used only to
state the clamping property of `target_state`. -/
def rawStep (s : State) : Action → State
  | .LEFT => ⟨s.y, s.x - 1⟩
  | .RIGHT => ⟨s.y, s.x + 1⟩
  | .UP => ⟨s.y - 1, s.x⟩
  | .DOWN => ⟨s.y + 1, s.x⟩

/-- When every draw is at least 1 no cell becomes a cliff, since every cliff
probability is below 1. -/
lemma cliff_empty_of_draw_ge_one {h w : Nat} {q rp : ℚ} {draw : State → ℚ}
    (hd : ∀ t, 1 ≤ draw t) (s : State) :
    s ∉ (mkGridWorld h w q rp draw).cliff_states := by
  intro hc
  rw [mem_cliff_mkGridWorld] at hc
  obtain ⟨-, hg, -, hlt⟩ := hc
  obtain ⟨h1, h2, h3, h4⟩ := hg
  have hy0 : (0 : ℚ) ≤ (s.y : ℚ) := by exact_mod_cast h1
  have hyh : (s.y : ℚ) ≤ (h : ℚ) := by
    have : (s.y : ℚ) < ((h : Int) : ℚ) := by exact_mod_cast h2
    push_cast at this ⊢
    linarith
  have hh0 : (0 : ℚ) ≤ (h : ℚ) := by positivity
  have hu1 : (s.y : ℚ) / (h : ℚ) ≤ 1 := by
    rcases eq_or_lt_of_le hh0 with he | hpos
    · rw [← he]
      simp
    · exact (div_le_one hpos).mpr hyh
  have hu0 : 0 ≤ (s.y : ℚ) / (h : ℚ) := by positivity
  have hsq : ((s.y : ℚ) / (h : ℚ)) ^ 2 ≤ 1 := pow_le_one₀ hu0 hu1
  have hP : pCliff h w s < 1 := by
    unfold pCliff
    split_ifs
    · nlinarith
    · nlinarith
  have := hd s
  linarith

/-! ### C6 -/

/-- C6: for every construction of the model (any height, width, probability
parameters, and random draws), the initial state `(height-1, 0)` and every
member of `goal_states` are not members of `cliff_states`. -/
theorem c6_start_goal_not_cliff (h w : Nat) (q rp : ℚ) (draw : State → ℚ) :
    (mkGridWorld h w q rp draw).initial_state ∉ (mkGridWorld h w q rp draw).cliff_states ∧
      ∀ t ∈ (mkGridWorld h w q rp draw).goal_states,
        t ∉ (mkGridWorld h w q rp draw).cliff_states := by
  constructor
  · intro hc
    rw [mkGridWorld_initial_state, mem_cliff_mkGridWorld] at hc
    exact hc.2.2.1 (Or.inl rfl)
  · intro t ht
    exact goal_not_cliff ht

/-- Witness for C6 at a concrete construction. -/
theorem c6_witness :
    (mkGridWorld 4 4 0 0 (fun _ => 0)).initial_state ∉
        (mkGridWorld 4 4 0 0 (fun _ => 0)).cliff_states ∧
      (⟨3, 3⟩ : State) ∉ (mkGridWorld 4 4 0 0 (fun _ => 0)).cliff_states :=
  ⟨(c6_start_goal_not_cliff 4 4 0 0 (fun _ => 0)).1,
   (c6_start_goal_not_cliff 4 4 0 0 (fun _ => 0)).2 ⟨3, 3⟩ (by
     rw [mkGridWorld_goal_states]
     norm_num)⟩

/-! ### C8 -/

/-- C8: for every in-bounds state and each of the four actions,
`target_state` returns the one-cell move in that direction clamped to the
grid boundary (it is either the unclamped move or, at an edge, the state
itself), and the result is again in bounds. -/
theorem c8_target_in_bounds (h w : Nat) (q rp : ℚ) (draw : State → ℚ) (s : State)
    (hs : inGrid h w s) (a : Action) :
    inGrid h w ((mkGridWorld h w q rp draw).target_state s a) ∧
      ((mkGridWorld h w q rp draw).target_state s a = rawStep s a ∨
        (mkGridWorld h w q rp draw).target_state s a = s) := by
  obtain ⟨sy, sx⟩ := s
  obtain ⟨h1, h2, h3, h4⟩ := hs
  dsimp only at h1 h2 h3 h4
  cases a <;>
    simp only [GridWorld.target_state, rawStep, inGrid, mkGridWorld_height,
      mkGridWorld_width, State.mk.injEq, sup_eq_max, inf_eq_min, true_and, and_true] <;>
    omega

/-- Witness for C8 at a concrete in-bounds state. -/
theorem c8_witness :
    inGrid 3 3 ((mkGridWorld 3 3 0 0 (fun _ => 0)).target_state ⟨1, 0⟩ Action.LEFT) ∧
      ((mkGridWorld 3 3 0 0 (fun _ => 0)).target_state ⟨1, 0⟩ Action.LEFT =
          rawStep ⟨1, 0⟩ Action.LEFT ∨
        (mkGridWorld 3 3 0 0 (fun _ => 0)).target_state ⟨1, 0⟩ Action.LEFT = ⟨1, 0⟩) :=
  c8_target_in_bounds 3 3 0 0 (fun _ => 0) ⟨1, 0⟩ (by constructor <;> norm_num) Action.LEFT

/-! ### C3 -/

/-- C3: for every goal state and every one of the four actions, the
transition list is exactly the one-element list with a self-transition of
probability 1 and reward 0 (goal states are absorbing). -/
theorem c3_goal_absorbing (h w : Nat) (q rp : ℚ) (draw : State → ℚ) (gs : State)
    (hg : gs ∈ (mkGridWorld h w q rp draw).goal_states) (a : Action) :
    transitionsAt (mkGridWorld h w q rp draw) gs a = [(⟨gs, 1, 0⟩ : Transition)] :=
  transitionsAt_goal _ _ _ hg

/-- Witness for C3 at a concrete goal state. -/
theorem c3_witness :
    transitionsAt (mkGridWorld 3 3 (1/10) (3/20) (fun _ => 1)) ⟨2, 2⟩ Action.UP =
      [(⟨⟨2, 2⟩, 1, 0⟩ : Transition)] :=
  c3_goal_absorbing 3 3 (1/10) (3/20) (fun _ => 1) ⟨2, 2⟩ (by
    rw [mkGridWorld_goal_states]
    norm_num) Action.UP

/-! ### C5 -/

/-- C5 counterexample: calling `target_state` or `transitions` on the
out-of-bounds state `(5, 5)` of a `3 × 3` grid does not fail with any error:
`target_state` returns the state `(5, 4)` and `transitions` returns an
ordinary complete four-action result.  The source performs no bounds check
and defines no `OutOfBounds` error. -/
theorem c5_counterexample :
    (mkGridWorld 3 3 (1/10) (3/20) (fun _ => 1)).target_state ⟨5, 5⟩ Action.LEFT = ⟨5, 4⟩ ∧
      ((mkGridWorld 3 3 (1/10) (3/20) (fun _ => 1)).transitions ⟨5, 5⟩).length = 4 := by
  constructor
  · simp only [GridWorld.target_state]
    norm_num
  · unfold GridWorld.transitions
    split_ifs <;> simp [ACTIONS]

/-- C5 amended: querying `transitions` on a state with coordinates outside
`[0, height) × [0, width)` does not fail; no bounds check is performed and a
complete four-action transition table is returned (similarly `target_state`
returns an ordinary state, obtained by clamping only the moved coordinate). -/
theorem c5_amended_no_failure (h w : Nat) (q rp : ℚ) (draw : State → ℚ) (s : State) :
    ((mkGridWorld h w q rp draw).transitions s).length = 4 := by
  unfold GridWorld.transitions
  split_ifs <;> simp [ACTIONS]

/-! ### C1 -/

/-- C1: for every in-bounds state that is neither a goal state nor a cliff
state and for every one of the four actions, the probabilities of the
transition list `transitions(s)[a]` sum to exactly 1 (as exact rationals). -/
theorem c1_transition_probs_sum_one (h w : Nat) (q rp : ℚ) (draw : State → ℚ) (s : State)
    (hs : inGrid h w s)
    (hgoal : s ∉ (mkGridWorld h w q rp draw).goal_states)
    (hcliff : s ∉ (mkGridWorld h w q rp draw).cliff_states)
    (a : Action) :
    ((transitionsAt (mkGridWorld h w q rp draw) s a).map Transition.prob).sum = 1 := by
  rw [transitionsAt_general _ _ _ hgoal
    (by rw [mkGridWorld_risky_goal_states]; exact Finset.not_mem_empty s)]
  rw [probs_sum_eval]
  cases a <;> simp <;> ring

/-- Witness for C1 at a concrete non-goal, non-cliff state. -/
theorem c1_witness :
    ((transitionsAt (mkGridWorld 3 3 (1/10) (3/20) (fun _ => 1)) ⟨1, 1⟩ Action.LEFT).map
      Transition.prob).sum = 1 :=
  c1_transition_probs_sum_one 3 3 (1/10) (3/20) (fun _ => 1) ⟨1, 1⟩
    (by refine ⟨?_, ?_, ?_, ?_⟩ <;> norm_num)
    (by rw [mkGridWorld_goal_states]; norm_num)
    (cliff_empty_of_draw_ge_one (fun t => le_refl 1) ⟨1, 1⟩)
    Action.LEFT

/-! ### C2 -/

/-- C2: for every non-goal, non-risky-goal in-bounds state `s`, nominal
action `a`, and candidate executed action `b` whose probability is nonzero,
the transition generated for `b` has reward `-40` and destination the fixed
goal state `(height-1, width-1)` when the deterministic target lies in
`cliff_states`, and otherwise has reward `-1` and destination the
deterministic target itself. -/
theorem c2_cliff_redirect_and_reward (h w : Nat) (q rp : ℚ) (draw : State → ℚ) (s : State)
    (hs : inGrid h w s)
    (hgoal : s ∉ (mkGridWorld h w q rp draw).goal_states)
    (hrisky : s ∉ (mkGridWorld h w q rp draw).risky_goal_states)
    (a b : Action)
    (hp : (if b = a then 1 - q else q / 3) ≠ 0) :
    ((mkGridWorld h w q rp draw).target_state s b ∈ (mkGridWorld h w q rp draw).cliff_states →
        (⟨⟨(h : Int) - 1, (w : Int) - 1⟩, if b = a then 1 - q else q / 3, -40⟩ : Transition) ∈
          transitionsAt (mkGridWorld h w q rp draw) s a) ∧
      ((mkGridWorld h w q rp draw).target_state s b ∉ (mkGridWorld h w q rp draw).cliff_states →
        (⟨(mkGridWorld h w q rp draw).target_state s b,
            if b = a then 1 - q else q / 3, -1⟩ : Transition) ∈
          transitionsAt (mkGridWorld h w q rp draw) s a) := by
  constructor
  · intro hcl
    rw [transitionsAt_general _ _ _ hgoal hrisky]
    refine List.mem_filterMap.mpr ⟨b, by cases b <;> simp [ACTIONS], ?_⟩
    rw [mkGridWorld_random_action_p, if_pos hp, if_pos hcl, if_pos hcl]
    rfl
  · intro hcl
    rw [transitionsAt_general _ _ _ hgoal hrisky]
    refine List.mem_filterMap.mpr ⟨b, by cases b <;> simp [ACTIONS], ?_⟩
    rw [mkGridWorld_random_action_p, if_pos hp, if_neg hcl, if_neg hcl]

/-- Witness for C2 at a concrete state and action pair. -/
theorem c2_witness :
    ((mkGridWorld 3 3 (1/10) (3/20) (fun _ => 1)).target_state ⟨1, 1⟩ Action.RIGHT ∈
          (mkGridWorld 3 3 (1/10) (3/20) (fun _ => 1)).cliff_states →
        (⟨⟨(3 : Int) - 1, (3 : Int) - 1⟩,
            if Action.RIGHT = Action.RIGHT then 1 - 1/10 else (1/10) / 3, -40⟩ : Transition) ∈
          transitionsAt (mkGridWorld 3 3 (1/10) (3/20) (fun _ => 1)) ⟨1, 1⟩ Action.RIGHT) ∧
      ((mkGridWorld 3 3 (1/10) (3/20) (fun _ => 1)).target_state ⟨1, 1⟩ Action.RIGHT ∉
          (mkGridWorld 3 3 (1/10) (3/20) (fun _ => 1)).cliff_states →
        (⟨(mkGridWorld 3 3 (1/10) (3/20) (fun _ => 1)).target_state ⟨1, 1⟩ Action.RIGHT,
            if Action.RIGHT = Action.RIGHT then 1 - 1/10 else (1/10) / 3, -1⟩ : Transition) ∈
          transitionsAt (mkGridWorld 3 3 (1/10) (3/20) (fun _ => 1)) ⟨1, 1⟩ Action.RIGHT) :=
  c2_cliff_redirect_and_reward 3 3 (1/10) (3/20) (fun _ => 1) ⟨1, 1⟩
    (by refine ⟨?_, ?_, ?_, ?_⟩ <;> norm_num)
    (by rw [mkGridWorld_goal_states]; norm_num)
    (by rw [mkGridWorld_risky_goal_states]; exact Finset.not_mem_empty _)
    Action.RIGHT Action.RIGHT
    (by norm_num)

/-! ### C10 -/

/-- C10: every destination state appearing in any transition returned for an
in-bounds state is outside `cliff_states`: cliff landings are redirected to
the goal state, and the goal branch only emits goal states. -/
theorem c10_no_cliff_destination (h w : Nat) (q rp : ℚ) (draw : State → ℚ) (s : State)
    (hs : inGrid h w s) (a : Action) (t : Transition)
    (ht : t ∈ transitionsAt (mkGridWorld h w q rp draw) s a) :
    t.state ∉ (mkGridWorld h w q rp draw).cliff_states := by
  by_cases hgoal : s ∈ (mkGridWorld h w q rp draw).goal_states
  · rw [transitionsAt_goal _ _ _ hgoal] at ht
    simp only [List.mem_singleton] at ht
    subst ht
    exact goal_not_cliff hgoal
  · rw [transitionsAt_general _ _ _ hgoal
      (by rw [mkGridWorld_risky_goal_states]; exact Finset.not_mem_empty s)] at ht
    obtain ⟨b, hb, hfb⟩ := List.mem_filterMap.mp ht
    by_cases hp : (if b = a then 1 - (mkGridWorld h w q rp draw).random_action_p
        else (mkGridWorld h w q rp draw).random_action_p / 3) ≠ 0
    · rw [if_pos hp] at hfb
      obtain rfl := (Option.some.injEq _ _).mp hfb
      by_cases hcl : (mkGridWorld h w q rp draw).target_state s b ∈
          (mkGridWorld h w q rp draw).cliff_states
      · simp only [if_pos hcl]
        exact goal_not_cliff (by rw [mkGridWorld_goal_states, mkGridWorld_firstGoal]; simp)
      · simp only [if_neg hcl]
        exact hcl
    · rw [if_neg hp] at hfb
      exact absurd hfb (by simp)

/-- Witness for C10 at a concrete transition. -/
theorem c10_witness :
    ((⟨⟨2, 2⟩, 1, 0⟩ : Transition)).state ∉
      (mkGridWorld 3 3 (1/10) (3/20) (fun _ => 1)).cliff_states :=
  c10_no_cliff_destination 3 3 (1/10) (3/20) (fun _ => 1) ⟨2, 2⟩
    (by refine ⟨?_, ?_, ?_, ?_⟩ <;> norm_num)
    Action.UP (⟨⟨2, 2⟩, 1, 0⟩ : Transition)
    (by
      rw [transitionsAt_goal _ _ _ (by rw [mkGridWorld_goal_states]; norm_num)]
      norm_num)

/-! ### C4 -/

/-- C4 counterexample: on a `4 × 5` grid the cell `(1, 1)` satisfies every
premise of the claim — it lies in the claimed band `1 ≤ x ≤ width-3`,
`1 ≤ y ≤ height-2`, it is neither the initial state nor a goal state, and
its draw `0` falls below the claimed success probability
`0.1 * (1/4)^2` — yet the constructed model does not put it in
`cliff_states`, because the code requires `x > 1`, not `x ≥ 1`. -/
theorem c4_counterexample :
    ((1 : Int) ≤ 1 ∧ (1 : Int) ≤ 5 - 3 ∧ (1 : Int) ≤ 1 ∧ (1 : Int) ≤ 4 - 2) ∧
      (⟨1, 1⟩ : State) ≠ (mkGridWorld 4 5 (1/10) (3/20) (fun _ => 0)).initial_state ∧
      (⟨1, 1⟩ : State) ∉ (mkGridWorld 4 5 (1/10) (3/20) (fun _ => 0)).goal_states ∧
      (0 : ℚ) < (1/10) * ((1 : ℚ) / 4) ^ 2 ∧
      (⟨1, 1⟩ : State) ∉ (mkGridWorld 4 5 (1/10) (3/20) (fun _ => 0)).cliff_states := by
  refine ⟨by norm_num, ?_, ?_, by norm_num, ?_⟩
  · rw [mkGridWorld_initial_state]
    norm_num
  · rw [mkGridWorld_goal_states]
    norm_num
  · intro hc
    rw [mem_cliff_mkGridWorld] at hc
    have hlt := hc.2.2.2
    unfold pCliff at hlt
    rw [if_neg (by norm_num)] at hlt
    norm_num at hlt

/-- C4 amended: membership in `cliff_states` of a constructed model is
characterised exactly as in the claim except that the band's lower column
bound is `2 ≤ x` (the code tests `x > 1`), not `1 ≤ x`: assuming all draws
are nonnegative, a cell is a cliff iff `height ≠ 1`, the cell is not the
initial state nor the goal state, it lies in the band
`2 ≤ x ≤ width-3`, `1 ≤ y ≤ height-2`, and its draw falls below
`0.1 * (y/height)^2`. -/
theorem c4_cliff_membership_amended (h w : Nat) (q rp : ℚ) (draw : State → ℚ)
    (hd : ∀ t, 0 ≤ draw t) (s : State) :
    s ∈ (mkGridWorld h w q rp draw).cliff_states ↔
      (h ≠ 1 ∧ s ≠ ⟨(h : Int) - 1, 0⟩ ∧ s ≠ ⟨(h : Int) - 1, (w : Int) - 1⟩ ∧
        2 ≤ s.x ∧ s.x ≤ (w : Int) - 3 ∧ 1 ≤ s.y ∧ s.y ≤ (h : Int) - 2 ∧
        draw s < (1/10) * ((s.y : ℚ) / (h : ℚ)) ^ 2) := by
  rw [mem_cliff_mkGridWorld]
  constructor
  · rintro ⟨h1, hg, hne, hlt⟩
    obtain ⟨hni, hngoal⟩ := not_or.mp hne
    obtain ⟨hg1, hg2, hg3, hg4⟩ := hg
    unfold pCliff at hlt
    by_cases hband : 1 < s.x ∧ 0 < s.y ∧ s.x < (w : Int) - 2 ∧ s.y < (h : Int) - 1
    · rw [if_pos hband, mul_one] at hlt
      exact ⟨h1, hni, hngoal, by omega, by omega, by omega, by omega, hlt⟩
    · rw [if_neg hband, mul_zero] at hlt
      exact absurd hlt (not_lt.mpr (hd s))
  · rintro ⟨h1, hni, hng, hx2, hx3, hy1, hy2, hlt⟩
    refine ⟨h1, ⟨by omega, by omega, by omega, by omega⟩, not_or.mpr ⟨hni, hng⟩, ?_⟩
    unfold pCliff
    rw [if_pos (by omega), mul_one]
    exact hlt

/-- Witness for the amended C4: a concrete in-band cell becomes a cliff. -/
theorem c4_witness :
    (⟨1, 2⟩ : State) ∈ (mkGridWorld 5 6 (1/10) (3/20) (fun _ => 0)).cliff_states :=
  (c4_cliff_membership_amended 5 6 (1/10) (3/20) (fun _ => 0) (fun t => le_refl 0) ⟨1, 2⟩).mpr
    (by refine ⟨by norm_num, ?_, ?_, by norm_num, by norm_num, by norm_num, by norm_num,
        by norm_num⟩ <;> norm_num)

/-! ### C9 -/

/-- Full evaluation of the general branch when both probability values are
nonzero: one transition per candidate action, in action order. -/
lemma transitionsAt_general_full (g : GridWorld) (s : State) (a : Action)
    (hs : s ∉ g.goal_states) (hr : s ∉ g.risky_goal_states)
    (h1 : 1 - g.random_action_p ≠ 0) (h2 : g.random_action_p / 3 ≠ 0) :
    transitionsAt g s a = ACTIONS.map (fun b =>
      (⟨if g.target_state s b ∈ g.cliff_states then g.firstGoal else g.target_state s b,
        if b = a then 1 - g.random_action_p else g.random_action_p / 3,
        if g.target_state s b ∈ g.cliff_states then FALL_REWARD else -1⟩ : Transition)) := by
  rw [transitionsAt_general _ _ _ hs hr]
  cases a <;> simp [ACTIONS, h1, h2]

/-- A draw function that makes exactly the two cells `(1,2)` and `(3,2)` of
the `5 × 5` grid into cliffs. -/
def drawC9 : State → ℚ := fun s => if s = ⟨1, 2⟩ ∨ s = ⟨3, 2⟩ then 0 else 1

lemma c9ce_mem12 : (⟨1, 2⟩ : State) ∈ (mkGridWorld 5 5 (1/10) (3/20) drawC9).cliff_states := by
  rw [mem_cliff_mkGridWorld]
  refine ⟨by norm_num, ⟨by norm_num, by norm_num, by norm_num, by norm_num⟩, ?_, ?_⟩
  · norm_num [State.mk.injEq]
  · unfold pCliff drawC9
    rw [if_pos (by norm_num)]
    norm_num

lemma c9ce_mem32 : (⟨3, 2⟩ : State) ∈ (mkGridWorld 5 5 (1/10) (3/20) drawC9).cliff_states := by
  rw [mem_cliff_mkGridWorld]
  refine ⟨by norm_num, ⟨by norm_num, by norm_num, by norm_num, by norm_num⟩, ?_, ?_⟩
  · norm_num [State.mk.injEq]
  · unfold pCliff drawC9
    rw [if_pos (by norm_num)]
    norm_num

/-- Cells in column 1 of the `5 × 5` grid are never cliffs (nonnegative draws). -/
lemma c9_not_cliff_left {draw : State → ℚ} (hd : ∀ t, 0 ≤ draw t) :
    (⟨2, 1⟩ : State) ∉ (mkGridWorld 5 5 (1/10) (3/20) draw).cliff_states := by
  intro hc
  rw [mem_cliff_mkGridWorld] at hc
  have hlt := hc.2.2.2
  unfold pCliff at hlt
  rw [if_neg (by norm_num)] at hlt
  rw [mul_zero] at hlt
  exact absurd hlt (not_lt.mpr (hd _))

/-- Cells in column 3 of the `5 × 5` grid are never cliffs (nonnegative draws). -/
lemma c9_not_cliff_right {draw : State → ℚ} (hd : ∀ t, 0 ≤ draw t) :
    (⟨2, 3⟩ : State) ∉ (mkGridWorld 5 5 (1/10) (3/20) draw).cliff_states := by
  intro hc
  rw [mem_cliff_mkGridWorld] at hc
  have hlt := hc.2.2.2
  unfold pCliff at hlt
  rw [if_neg (by norm_num)] at hlt
  rw [mul_zero] at hlt
  exact absurd hlt (not_lt.mpr (hd _))

/-- C9 counterexample: under draws that make `(1,2)` and `(3,2)` cliffs, the
list `transitions((2,2))[UP]` of the `5 × 5`, `random_action_p = 0.1` model
has the destinations `[(2,1), (2,3), (4,4), (4,4)]`, which are not pairwise
distinct — both cliff landings are redirected to the same goal state. -/
theorem c9_counterexample :
    ((transitionsAt (mkGridWorld 5 5 (1/10) (3/20) drawC9) ⟨2, 2⟩ Action.UP).map
        Transition.state) = [⟨2, 1⟩, ⟨2, 3⟩, ⟨4, 4⟩, ⟨4, 4⟩] ∧
      ¬ ((transitionsAt (mkGridWorld 5 5 (1/10) (3/20) drawC9) ⟨2, 2⟩ Action.UP).map
        Transition.state).Nodup := by
  have hmap : ((transitionsAt (mkGridWorld 5 5 (1/10) (3/20) drawC9) ⟨2, 2⟩ Action.UP).map
      Transition.state) = [⟨2, 1⟩, ⟨2, 3⟩, ⟨4, 4⟩, ⟨4, 4⟩] := by
    rw [transitionsAt_general_full _ _ _
      (by rw [mkGridWorld_goal_states]; norm_num)
      (by rw [mkGridWorld_risky_goal_states]; exact Finset.not_mem_empty _)
      (by rw [mkGridWorld_random_action_p]; norm_num)
      (by rw [mkGridWorld_random_action_p]; norm_num)]
    have ht1 : (mkGridWorld 5 5 (1/10) (3/20) drawC9).target_state ⟨2, 2⟩ Action.LEFT
        = ⟨2, 1⟩ := by
      simp [GridWorld.target_state]
    have ht2 : (mkGridWorld 5 5 (1/10) (3/20) drawC9).target_state ⟨2, 2⟩ Action.RIGHT
        = ⟨2, 3⟩ := by
      simp [GridWorld.target_state, mkGridWorld_width]
    have ht3 : (mkGridWorld 5 5 (1/10) (3/20) drawC9).target_state ⟨2, 2⟩ Action.UP
        = ⟨1, 2⟩ := by
      simp [GridWorld.target_state]
    have ht4 : (mkGridWorld 5 5 (1/10) (3/20) drawC9).target_state ⟨2, 2⟩ Action.DOWN
        = ⟨3, 2⟩ := by
      simp [GridWorld.target_state, mkGridWorld_height]
    simp only [ACTIONS, List.map_cons, List.map_nil, ht1, ht2, ht3, ht4,
      c9ce_mem12, c9ce_mem32, if_pos, if_true]
    simp [c9ce_mem12, c9ce_mem32, mkGridWorld_firstGoal, State.mk.injEq]
    exact ⟨by
      intro hc
      rw [mem_cliff_mkGridWorld] at hc
      have hlt := hc.2.2.2
      unfold pCliff at hlt
      rw [if_neg (by norm_num)] at hlt
      unfold drawC9 at hlt
      norm_num [State.mk.injEq] at hlt, by
      intro hc
      rw [mem_cliff_mkGridWorld] at hc
      have hlt := hc.2.2.2
      unfold pCliff at hlt
      rw [if_neg (by norm_num)] at hlt
      unfold drawC9 at hlt
      norm_num [State.mk.injEq] at hlt⟩
  refine ⟨hmap, ?_⟩
  rw [hmap]
  decide

/-- C9 amended: for the `5 × 5`, `random_action_p = 0.1` model (any
nonnegative draws), `transitions((2,2))[UP]` has exactly 4 entries, one per
executed action, with probabilities `1/30, 1/30, 9/10, 1/30` summing to 1;
the destinations are pairwise distinct whenever the two reachable interior
cells `(1,2)` and `(3,2)` are not both cliffs (when both are, the two
redirected destinations coincide at the goal state). -/
theorem c9_scenario_amended (draw : State → ℚ) (hd : ∀ t, 0 ≤ draw t) :
    (transitionsAt (mkGridWorld 5 5 (1/10) (3/20) draw) ⟨2, 2⟩ Action.UP).length = 4 ∧
      ((transitionsAt (mkGridWorld 5 5 (1/10) (3/20) draw) ⟨2, 2⟩ Action.UP).map
        Transition.prob) = [1/30, 1/30, 9/10, 1/30] ∧
      ((transitionsAt (mkGridWorld 5 5 (1/10) (3/20) draw) ⟨2, 2⟩ Action.UP).map
        Transition.prob).sum = 1 ∧
      (¬((⟨1, 2⟩ : State) ∈ (mkGridWorld 5 5 (1/10) (3/20) draw).cliff_states ∧
          (⟨3, 2⟩ : State) ∈ (mkGridWorld 5 5 (1/10) (3/20) draw).cliff_states) →
        ((transitionsAt (mkGridWorld 5 5 (1/10) (3/20) draw) ⟨2, 2⟩ Action.UP).map
          Transition.state).Nodup) := by
  have hfull := transitionsAt_general_full (mkGridWorld 5 5 (1/10) (3/20) draw) ⟨2, 2⟩
    Action.UP
    (by rw [mkGridWorld_goal_states]; norm_num)
    (by rw [mkGridWorld_risky_goal_states]; exact Finset.not_mem_empty _)
    (by rw [mkGridWorld_random_action_p]; norm_num)
    (by rw [mkGridWorld_random_action_p]; norm_num)
  have ht1 : (mkGridWorld 5 5 (1/10) (3/20) draw).target_state ⟨2, 2⟩ Action.LEFT
      = ⟨2, 1⟩ := by
    simp [GridWorld.target_state]
  have ht2 : (mkGridWorld 5 5 (1/10) (3/20) draw).target_state ⟨2, 2⟩ Action.RIGHT
      = ⟨2, 3⟩ := by
    simp [GridWorld.target_state, mkGridWorld_width]
  have ht3 : (mkGridWorld 5 5 (1/10) (3/20) draw).target_state ⟨2, 2⟩ Action.UP
      = ⟨1, 2⟩ := by
    simp [GridWorld.target_state]
  have ht4 : (mkGridWorld 5 5 (1/10) (3/20) draw).target_state ⟨2, 2⟩ Action.DOWN
      = ⟨3, 2⟩ := by
    simp [GridWorld.target_state, mkGridWorld_height]
  refine ⟨by rw [hfull]; simp [ACTIONS], ?_, ?_, ?_⟩
  · rw [hfull]
    simp only [ACTIONS, List.map_cons, List.map_nil, mkGridWorld_random_action_p]
    norm_num
    decide
  · rw [hfull]
    simp only [ACTIONS, List.map_cons, List.map_nil, mkGridWorld_random_action_p]
    norm_num
    simp only [reduceCtorEq, if_false]
    norm_num
  · intro hnot
    rw [hfull]
    simp only [ACTIONS, List.map_cons, List.map_nil, ht1, ht2, ht3, ht4,
      mkGridWorld_firstGoal]
    by_cases h12 : (⟨1, 2⟩ : State) ∈ (mkGridWorld 5 5 (1/10) (3/20) draw).cliff_states <;>
      by_cases h32 : (⟨3, 2⟩ : State) ∈ (mkGridWorld 5 5 (1/10) (3/20) draw).cliff_states
    · exact absurd ⟨h12, h32⟩ hnot
    all_goals
      simp only [h12, h32, c9_not_cliff_left hd, c9_not_cliff_right hd,
        if_true, if_false, ite_true, ite_false]
    all_goals decide

/-- Witness for the amended C9 at concrete zero-cliff draws. -/
theorem c9_witness :
    (transitionsAt (mkGridWorld 5 5 (1/10) (3/20) (fun _ => 1)) ⟨2, 2⟩ Action.UP).length = 4 ∧
      ((transitionsAt (mkGridWorld 5 5 (1/10) (3/20) (fun _ => 1)) ⟨2, 2⟩ Action.UP).map
        Transition.prob) = [1/30, 1/30, 9/10, 1/30] ∧
      ((transitionsAt (mkGridWorld 5 5 (1/10) (3/20) (fun _ => 1)) ⟨2, 2⟩ Action.UP).map
        Transition.prob).sum = 1 ∧
      (¬((⟨1, 2⟩ : State) ∈ (mkGridWorld 5 5 (1/10) (3/20) (fun _ => 1)).cliff_states ∧
          (⟨3, 2⟩ : State) ∈ (mkGridWorld 5 5 (1/10) (3/20) (fun _ => 1)).cliff_states) →
        ((transitionsAt (mkGridWorld 5 5 (1/10) (3/20) (fun _ => 1)) ⟨2, 2⟩ Action.UP).map
          Transition.state).Nodup) :=
  c9_scenario_amended (fun _ => 1) (fun t => by norm_num)

/-! ### C7 -/

lemma filterMap_skip_eq_filter {α β : Type} (f : α → β) (p : β → Prop) [DecidablePred p]
    (l : List α) :
    l.filterMap (fun x => if p (f x) then none else some (f x)) =
      (l.map f).filter (fun b => decide (¬ p b)) := by
  induction l with
  | nil => rfl
  | cons x xs ih =>
    by_cases hx : p (f x) <;>
      simp [List.filterMap_cons, List.filter_cons, hx, ih]

lemma statesList_eq_filter (g : GridWorld) :
    g.statesList = (gridList g.height g.width).filter (fun t => decide (t ∉ g.cliff_states)) := by
  unfold GridWorld.statesList gridList
  rw [List.filter_flatMap]
  congr 1
  funext y
  exact filterMap_skip_eq_filter (fun (x : Nat) => (⟨(y : Int), (x : Int)⟩ : State))
    (fun t => t ∈ g.cliff_states) (List.range g.width)

lemma gridList_length (h w : Nat) : (gridList h w).length = h * w := by
  induction h with
  | zero => simp [gridList]
  | succ n ih =>
    unfold gridList at ih ⊢
    rw [List.range_succ, List.flatMap_append, List.length_append, ih]
    simp [Nat.succ_mul]

lemma rowMajorLt_ne {s t : State} (hlt : rowMajorLt s t) : s ≠ t := by
  rintro rfl
  rcases hlt with hy | ⟨-, hx⟩
  · exact absurd hy (lt_irrefl _)
  · exact absurd hx (lt_irrefl _)

lemma gridList_pairwise (h w : Nat) : (gridList h w).Pairwise rowMajorLt := by
  unfold gridList
  rw [List.pairwise_flatMap]
  constructor
  · intro y hy
    rw [List.pairwise_map]
    refine (List.pairwise_lt_range w).imp ?_
    intro a b hab
    exact Or.inr ⟨rfl, Int.ofNat_lt.mpr hab⟩
  · refine (List.pairwise_lt_range h).imp ?_
    intro y1 y2 hy t ht u hu
    obtain ⟨a, -, rfl⟩ := List.mem_map.mp ht
    obtain ⟨b, -, rfl⟩ := List.mem_map.mp hu
    exact Or.inl (Int.ofNat_lt.mpr hy)

lemma gridList_nodup (h w : Nat) : (gridList h w).Nodup :=
  (gridList_pairwise h w).imp rowMajorLt_ne

lemma statesList_nodup (g : GridWorld) : g.statesList.Nodup := by
  rw [statesList_eq_filter]
  exact (gridList_nodup g.height g.width).filter _

lemma statesList_pairwise (g : GridWorld) : g.statesList.Pairwise rowMajorLt := by
  rw [statesList_eq_filter]
  exact (gridList_pairwise g.height g.width).filter _

lemma mem_statesList (g : GridWorld) {s : State} :
    s ∈ g.statesList ↔ inGrid g.height g.width s ∧ s ∉ g.cliff_states := by
  rw [statesList_eq_filter, List.mem_filter, mem_gridList]
  simp

lemma length_filter_add_length_filter_not {α : Type} (l : List α) (p : α → Bool) :
    (l.filter p).length + (l.filter (fun a => !(p a))).length = l.length := by
  induction l with
  | nil => rfl
  | cons x xs ih =>
    cases hx : p x <;> simp [List.filter_cons, hx, ← ih] <;> omega

lemma cliff_filter_length (g : GridWorld)
    (hsub : ∀ t ∈ g.cliff_states, t ∈ gridList g.height g.width) :
    ((gridList g.height g.width).filter (fun t => decide (t ∈ g.cliff_states))).length =
      g.cliff_states.card := by
  have hnd : ((gridList g.height g.width).filter
      (fun t => decide (t ∈ g.cliff_states))).Nodup :=
    (gridList_nodup g.height g.width).filter _
  have hfin : ((gridList g.height g.width).filter
      (fun t => decide (t ∈ g.cliff_states))).toFinset = g.cliff_states := by
    ext t
    rw [List.mem_toFinset, List.mem_filter]
    constructor
    · rintro ⟨-, hm⟩
      simpa using hm
    · intro hm
      exact ⟨hsub t hm, by simpa using hm⟩
  rw [← List.toFinset_card_of_nodup hnd, hfin]

lemma statesList_length (g : GridWorld)
    (hsub : ∀ t ∈ g.cliff_states, t ∈ gridList g.height g.width) :
    g.statesList.length = g.height * g.width - g.cliff_states.card := by
  have hpart := length_filter_add_length_filter_not (gridList g.height g.width)
    (fun t => decide (t ∈ g.cliff_states))
  rw [gridList_length, cliff_filter_length g hsub] at hpart
  rw [statesList_eq_filter]
  have hpred : (fun t => decide (t ∉ g.cliff_states)) =
      (fun t => !(decide (t ∈ g.cliff_states))) := by
    funext t
    simp
  rw [hpred]
  omega

/-- C7: `states()` yields exactly `height*width - |cliff_states|` distinct
states, each in the grid and not a cliff state, covering every grid state
outside `cliff_states`, in row-major order. -/
theorem c7_states_enumeration (h w : Nat) (q rp : ℚ) (draw : State → ℚ) :
    (mkGridWorld h w q rp draw).statesList.length =
        h * w - (mkGridWorld h w q rp draw).cliff_states.card ∧
      (mkGridWorld h w q rp draw).statesList.Nodup ∧
      (∀ s ∈ (mkGridWorld h w q rp draw).statesList,
        inGrid h w s ∧ s ∉ (mkGridWorld h w q rp draw).cliff_states) ∧
      (∀ s : State, inGrid h w s → s ∉ (mkGridWorld h w q rp draw).cliff_states →
        s ∈ (mkGridWorld h w q rp draw).statesList) ∧
      (mkGridWorld h w q rp draw).statesList.Pairwise rowMajorLt := by
  have hsub : ∀ t ∈ (mkGridWorld h w q rp draw).cliff_states,
      t ∈ gridList (mkGridWorld h w q rp draw).height (mkGridWorld h w q rp draw).width := by
    intro t ht
    rw [mem_cliff_mkGridWorld] at ht
    rw [mkGridWorld_height, mkGridWorld_width, mem_gridList]
    exact ht.2.1
  refine ⟨?_, statesList_nodup _, ?_, ?_, statesList_pairwise _⟩
  · have hlen := statesList_length _ hsub
    rwa [mkGridWorld_height, mkGridWorld_width] at hlen
  · intro s hs
    have hm := (mem_statesList _).mp hs
    rwa [mkGridWorld_height, mkGridWorld_width] at hm
  · intro s h1 h2
    refine (mem_statesList _).mpr ?_
    rw [mkGridWorld_height, mkGridWorld_width]
    exact ⟨h1, h2⟩

/-- Witness for C7: the corner state of a concrete model is enumerated. -/
theorem c7_witness :
    (⟨0, 0⟩ : State) ∈ (mkGridWorld 2 2 0 0 (fun _ => 1)).statesList :=
  (c7_states_enumeration 2 2 0 0 (fun _ => 1)).2.2.2.1 ⟨0, 0⟩
    (by refine ⟨?_, ?_, ?_, ?_⟩ <;> norm_num)
    (cliff_empty_of_draw_ge_one (fun t => le_refl 1) ⟨0, 0⟩)

end Cliffwalker
